import Mathlib

/-!
Verification of the two MCP trading adapters (binance_mcp.py and dhan_mcp.py).

The Python modules are shallowly embedded: Python dicts become association
lists in insertion order, Python None becomes the PyVal.none value, floats are
carried opaquely (no arithmetic is performed on them anywhere in the code),
and the HTTP layer is an oracle mapping each outbound request to the response
of the remote server. Each tool returns the list of requests it issued
together with its result, so that request counts, methods, paths, headers,
query parameters and bodies are all observable.
-/

/-- Opaque carrier for a Python float argument. The adapters never compute
with floats; they only place them into request bodies, so the carrier only
records the literal form the value would print as. -/
structure PyFloat where
  lit : String

/-- A Python value as it occurs in the parameter dicts of the adapters. -/
inductive PyVal : Type where
  | none
  | bool (b : Bool)
  | int (n : Int)
  | float (f : PyFloat)
  | str (s : String)
  | list (xs : List PyVal)

/-- Embedding of the Python test `v is None`. -/
def PyVal.isNone : PyVal → Bool
  | .none => true
  | _ => false

/-- Embedding of the Python test `isinstance(v, list)`. -/
def PyVal.isList : PyVal → Bool
  | .list _ => true
  | _ => false

/-- Minimal escaping of a JSON string body, as json.dumps performs. -/
def jsonEscapeChar (c : Char) : String :=
  if c = '\"' then "\\\"" else if c = '\\' then "\\\\" else String.singleton c

/-- Escape every character of a string for inclusion in a JSON literal. -/
def jsonEscape (s : String) : String :=
  String.join (s.data.map jsonEscapeChar)

mutual

/-- Embedding of json.dumps on a Python value. -/
def jsonDumps : PyVal → String
  | .none => "null"
  | .bool true => "true"
  | .bool false => "false"
  | .int n => toString n
  | .float f => f.lit
  | .str s => "\"" ++ jsonEscape s ++ "\""
  | .list xs => "[" ++ jsonDumpsList xs ++ "]"

/-- json.dumps of the elements of a list, joined by the default separator. -/
def jsonDumpsList : List PyVal → String
  | [] => ""
  | [v] => jsonDumps v
  | v :: w :: rest => jsonDumps v ++ ", " ++ jsonDumpsList (w :: rest)

end

/-- binance_mcp.py lines 14-23: build a fresh dict, skipping None values and
JSON-encoding list values, keeping everything else as is (a Python for loop
over the items, filling an output dict). -/
def serialize_params : List (String × PyVal) → List (String × PyVal)
  | [] => []
  | (k, v) :: rest =>
    if v.isNone then serialize_params rest
    else (k, if v.isList then PyVal.str (jsonDumps v) else v) :: serialize_params rest

/-- dhan_mcp.py lines 22-25: the dict comprehension filtering out None values
and JSON-encoding lists, in one pass over the items. -/
def serialize (params : List (String × PyVal)) : List (String × PyVal) :=
  params.filterMap (fun kv =>
    if kv.2.isNone then Option.none
    else some (kv.1, if kv.2.isList then PyVal.str (jsonDumps kv.2) else kv.2))

/-- Modelled from the spec: the described outcome of parameter serialization.
Keep exactly the keys whose values are not None, in order; replace each
list value by its JSON encoding; leave every other value unchanged. This
definition follows the words of the spec and is compared against the two
source functions above. -/
def specSerialize (m : List (String × PyVal)) : List (String × PyVal) :=
  (m.filter (fun kv => !(kv.2.isNone))).map
    (fun kv => (kv.1, if kv.2.isList then PyVal.str (jsonDumps kv.2) else kv.2))

theorem serialize_params_eq_spec (m : List (String × PyVal)) :
    serialize_params m = specSerialize m := by
  induction m with
  | nil => rfl
  | cons kv rest ih =>
    cases h : kv.2.isNone <;>
      simp [serialize_params, specSerialize, List.filter_cons, h] at ih ⊢ <;>
      simpa [specSerialize] using ih

theorem serialize_eq_spec (m : List (String × PyVal)) :
    serialize m = specSerialize m := by
  induction m with
  | nil => rfl
  | cons kv rest ih =>
    cases h : kv.2.isNone <;>
      simp [serialize, specSerialize, List.filter_cons, List.filterMap_cons, h] at ih ⊢ <;>
      simpa [serialize, specSerialize] using ih

/-- Unfolding of specSerialize on a cons cell. -/
theorem specSerialize_cons (kv : String × PyVal) (rest : List (String × PyVal)) :
    specSerialize (kv :: rest) =
      if kv.2.isNone then specSerialize rest
      else (kv.1, if kv.2.isList then PyVal.str (jsonDumps kv.2) else kv.2)
        :: specSerialize rest := by
  cases h : kv.2.isNone <;> simp [specSerialize, List.filter_cons, h]

/-- The serialized output never contains a None value or a list value. -/
theorem specSerialize_all_scalar (m : List (String × PyVal)) :
    (specSerialize m).all (fun kv => !(kv.2.isNone) && !(kv.2.isList)) = true := by
  induction m with
  | nil => rfl
  | cons kv rest ih =>
    rw [specSerialize_cons]
    cases h : kv.2.isNone
    · rw [if_neg (by simp [h])]
      rw [List.all_cons, ih, Bool.and_true]
      cases h2 : kv.2.isList
      · rw [if_neg (by simp [h2])]
        show (!(kv.2.isNone) && !(kv.2.isList)) = true
        rw [h, h2]
        rfl
      · rw [if_pos (by simp [h2])]
        rfl
    · rw [if_pos (by simp [h])]
      exact ih

/-- Serialization is the identity on a mapping that has no None and no list
values. -/
theorem specSerialize_id_of_scalar (m : List (String × PyVal))
    (h : m.all (fun kv => !(kv.2.isNone) && !(kv.2.isList)) = true) :
    specSerialize m = m := by
  induction m with
  | nil => rfl
  | cons kv rest ih =>
    simp [List.all_cons] at h
    simp [specSerialize, List.filter_cons, h.1.1, h.1.2, specSerialize] at ih ⊢
    simpa [specSerialize] using ih h.2

/-- HTTP method used by the adapters (only GET and POST occur). -/
inductive Method : Type where
  | GET
  | POST

/-- An outbound HTTP request as the adapters build it: method, full URL,
explicit headers, query parameters and optional JSON body. -/
structure Request where
  method : Method
  url : String
  headers : List (String × Option String)
  params : List (String × PyVal)
  jsonBody : Option (List (String × PyVal))

/-- A JSON document, the carrier for parsed response bodies. -/
inductive Json : Type where
  | null
  | bool (b : Bool)
  | num (repr : String)
  | str (s : String)
  | arr (xs : List Json)
  | obj (kvs : List (String × Json))

/-- The response of the remote server to one request: its HTTP status code,
its raw body text, and the JSON parse of that body that resp.json would
return. -/
structure Response where
  status : Nat
  text : String
  jsonVal : Json

/-- The remote HTTP layer, modelled as an oracle from requests to
responses. -/
def Env : Type := Request → Response

/-- The error raised by httpx raise_for_status, identified by the offending
status code. -/
inductive HttpError : Type where
  | statusError (status : Nat)

/-- Success statuses in the sense of httpx: 2xx. -/
def is2xx (status : Nat) : Bool := decide (200 ≤ status ∧ status < 300)

/-- Embedding of resp.raise_for_status: raise exactly on a non-2xx status. -/
def raiseForStatus (r : Response) : Except HttpError Unit :=
  if is2xx r.status then Except.ok () else Except.error (HttpError.statusError r.status)

/-- The four-line pattern repeated in every crypto tool: open a client, issue
the single GET request, raise on a non-2xx status, return resp.text. The
returned list records the requests issued. -/
def httpGetText (env : Env) (req : Request) : List Request × Except HttpError String :=
  let resp := env req
  ([req], (raiseForStatus resp).map (fun _ => resp.text))

theorem httpGetText_snd (env : Env) (req : Request) :
    (httpGetText env req).2 =
      (if is2xx (env req).status then Except.ok (env req).text
       else Except.error (HttpError.statusError (env req).status)) := by
  show (raiseForStatus (env req)).map (fun _ => (env req).text) = _
  unfold raiseForStatus
  cases h : is2xx (env req).status <;> simp [h, Except.map]

/-- Module-level state of binance_mcp.py: the fixed base URL and the set of
registered tools, established once when the module loads. -/
structure BinanceModule where
  BASE_URL : String
  tools : List String

/-- binance_mcp.py lines 8-12 and the twelve tool registrations: the module
state after import. -/
def binanceModuleInit : BinanceModule :=
  { BASE_URL := "https://api.binance.com/api/v3/",
    tools := ["ExchangeInfoOfASymbol", "ExchangeInfoOfAllSymbols", "getTradeData",
              "AggTrades", "TradeHistory", "Depth", "CurrentAvgPrice",
              "PriceTickerIn24Hr", "TradingDayTicker", "SymbolPriceTicker",
              "SymbolOrderBookTicker", "RollingWindowTicker"] }

/-- Lift an optional Python int argument to a PyVal. -/
def optInt : Option Int → PyVal
  | Option.none => PyVal.none
  | some n => PyVal.int n

/-- Lift an optional Python str argument to a PyVal. -/
def optStr : Option String → PyVal
  | Option.none => PyVal.none
  | some s => PyVal.str s

/-- Lift an optional Python list-of-str argument to a PyVal. -/
def optStrList : Option (List String) → PyVal
  | Option.none => PyVal.none
  | some xs => PyVal.list (xs.map PyVal.str)

/-- binance_mcp.py lines 25-31. -/
def ExchangeInfoOfASymbol (st : BinanceModule) (env : Env) (symbol : String) :
    List Request × Except HttpError String :=
  httpGetText env
    { method := Method.GET, url := st.BASE_URL ++ "exchangeInfo", headers := [],
      params := [("symbol", PyVal.str symbol)], jsonBody := Option.none }

/-- binance_mcp.py lines 33-39: no params argument is passed at all. -/
def ExchangeInfoOfAllSymbols (st : BinanceModule) (env : Env) :
    List Request × Except HttpError String :=
  httpGetText env
    { method := Method.GET, url := st.BASE_URL ++ "exchangeInfo", headers := [],
      params := [], jsonBody := Option.none }

/-- binance_mcp.py lines 41-60. -/
def getTradeData (st : BinanceModule) (env : Env) (symbol interval : String)
    (startTime endTime limit : Option Int) : List Request × Except HttpError String :=
  httpGetText env
    { method := Method.GET, url := st.BASE_URL ++ "klines", headers := [],
      params := serialize_params
        [("symbol", PyVal.str symbol), ("interval", PyVal.str interval),
         ("startTime", optInt startTime), ("endTime", optInt endTime),
         ("limit", optInt limit)],
      jsonBody := Option.none }

/-- binance_mcp.py lines 62-68 (limit defaults to 20 at the tool surface). -/
def AggTrades (st : BinanceModule) (env : Env) (symbol : String) (limit : Int) :
    List Request × Except HttpError String :=
  httpGetText env
    { method := Method.GET, url := st.BASE_URL ++ "aggTrades", headers := [],
      params := [("symbol", PyVal.str symbol), ("limit", PyVal.int limit)],
      jsonBody := Option.none }

/-- binance_mcp.py lines 70-76 (limit defaults to 20 at the tool surface). -/
def TradeHistory (st : BinanceModule) (env : Env) (symbol : String) (limit : Int) :
    List Request × Except HttpError String :=
  httpGetText env
    { method := Method.GET, url := st.BASE_URL ++ "historicalTrades", headers := [],
      params := [("symbol", PyVal.str symbol), ("limit", PyVal.int limit)],
      jsonBody := Option.none }

/-- binance_mcp.py lines 78-84. -/
def Depth (st : BinanceModule) (env : Env) (symbol : String) :
    List Request × Except HttpError String :=
  httpGetText env
    { method := Method.GET, url := st.BASE_URL ++ "depth", headers := [],
      params := [("symbol", PyVal.str symbol)], jsonBody := Option.none }

/-- binance_mcp.py lines 86-92. -/
def CurrentAvgPrice (st : BinanceModule) (env : Env) (symbol : String) :
    List Request × Except HttpError String :=
  httpGetText env
    { method := Method.GET, url := st.BASE_URL ++ "avgPrice", headers := [],
      params := [("symbol", PyVal.str symbol)], jsonBody := Option.none }

/-- binance_mcp.py lines 94-100. -/
def PriceTickerIn24Hr (st : BinanceModule) (env : Env) (symbol : String) :
    List Request × Except HttpError String :=
  httpGetText env
    { method := Method.GET, url := st.BASE_URL ++ "ticker/24hr", headers := [],
      params := [("symbol", PyVal.str symbol)], jsonBody := Option.none }

/-- binance_mcp.py lines 102-109. -/
def TradingDayTicker (st : BinanceModule) (env : Env) (symbols : List String) :
    List Request × Except HttpError String :=
  httpGetText env
    { method := Method.GET, url := st.BASE_URL ++ "ticker/tradingDay", headers := [],
      params := serialize_params [("symbols", PyVal.list (symbols.map PyVal.str))],
      jsonBody := Option.none }

/-- binance_mcp.py lines 111-121. -/
def SymbolPriceTicker (st : BinanceModule) (env : Env)
    (symbol : Option String) (symbols : Option (List String)) :
    List Request × Except HttpError String :=
  httpGetText env
    { method := Method.GET, url := st.BASE_URL ++ "ticker/price", headers := [],
      params := serialize_params
        [("symbol", optStr symbol), ("symbols", optStrList symbols)],
      jsonBody := Option.none }

/-- binance_mcp.py lines 123-133. -/
def SymbolOrderBookTicker (st : BinanceModule) (env : Env)
    (symbol : Option String) (symbols : Option (List String)) :
    List Request × Except HttpError String :=
  httpGetText env
    { method := Method.GET, url := st.BASE_URL ++ "ticker/bookTicker", headers := [],
      params := serialize_params
        [("symbol", optStr symbol), ("symbols", optStrList symbols)],
      jsonBody := Option.none }

/-- binance_mcp.py lines 135-152. -/
def RollingWindowTicker (st : BinanceModule) (env : Env)
    (symbol : Option String) (symbols : Option (List String))
    (windowSize ty : Option String) : List Request × Except HttpError String :=
  httpGetText env
    { method := Method.GET, url := st.BASE_URL ++ "ticker", headers := [],
      params := serialize_params
        [("symbol", optStr symbol), ("symbols", optStrList symbols),
         ("windowSize", optStr windowSize), ("type", optStr ty)],
      jsonBody := Option.none }

/-- One invocation of a crypto-adapter tool, with its arguments. -/
inductive BinanceCall : Type where
  | exchangeInfoOfASymbol (symbol : String)
  | exchangeInfoOfAllSymbols
  | getTradeData (symbol interval : String) (startTime endTime limit : Option Int)
  | aggTrades (symbol : String) (limit : Int)
  | tradeHistory (symbol : String) (limit : Int)
  | depth (symbol : String)
  | currentAvgPrice (symbol : String)
  | priceTickerIn24Hr (symbol : String)
  | tradingDayTicker (symbols : List String)
  | symbolPriceTicker (symbol : Option String) (symbols : Option (List String))
  | symbolOrderBookTicker (symbol : Option String) (symbols : Option (List String))
  | rollingWindowTicker (symbol : Option String) (symbols : Option (List String))
      (windowSize ty : Option String)

/-- Dispatch a crypto-adapter tool invocation to its tool function. -/
def runBinance (st : BinanceModule) (env : Env) : BinanceCall →
    List Request × Except HttpError String
  | .exchangeInfoOfASymbol symbol => ExchangeInfoOfASymbol st env symbol
  | .exchangeInfoOfAllSymbols => ExchangeInfoOfAllSymbols st env
  | .getTradeData symbol interval a b c => getTradeData st env symbol interval a b c
  | .aggTrades symbol limit => AggTrades st env symbol limit
  | .tradeHistory symbol limit => TradeHistory st env symbol limit
  | .depth symbol => Depth st env symbol
  | .currentAvgPrice symbol => CurrentAvgPrice st env symbol
  | .priceTickerIn24Hr symbol => PriceTickerIn24Hr st env symbol
  | .tradingDayTicker symbols => TradingDayTicker st env symbols
  | .symbolPriceTicker symbol symbols => SymbolPriceTicker st env symbol symbols
  | .symbolOrderBookTicker symbol symbols => SymbolOrderBookTicker st env symbol symbols
  | .rollingWindowTicker symbol symbols w t => RollingWindowTicker st env symbol symbols w t

/-- The single request each crypto-adapter tool builds from its arguments. -/
def binanceRequest (st : BinanceModule) : BinanceCall → Request
  | .exchangeInfoOfASymbol symbol =>
    { method := Method.GET, url := st.BASE_URL ++ "exchangeInfo", headers := [],
      params := [("symbol", PyVal.str symbol)], jsonBody := Option.none }
  | .exchangeInfoOfAllSymbols =>
    { method := Method.GET, url := st.BASE_URL ++ "exchangeInfo", headers := [],
      params := [], jsonBody := Option.none }
  | .getTradeData symbol interval startTime endTime limit =>
    { method := Method.GET, url := st.BASE_URL ++ "klines", headers := [],
      params := serialize_params
        [("symbol", PyVal.str symbol), ("interval", PyVal.str interval),
         ("startTime", optInt startTime), ("endTime", optInt endTime),
         ("limit", optInt limit)],
      jsonBody := Option.none }
  | .aggTrades symbol limit =>
    { method := Method.GET, url := st.BASE_URL ++ "aggTrades", headers := [],
      params := [("symbol", PyVal.str symbol), ("limit", PyVal.int limit)],
      jsonBody := Option.none }
  | .tradeHistory symbol limit =>
    { method := Method.GET, url := st.BASE_URL ++ "historicalTrades", headers := [],
      params := [("symbol", PyVal.str symbol), ("limit", PyVal.int limit)],
      jsonBody := Option.none }
  | .depth symbol =>
    { method := Method.GET, url := st.BASE_URL ++ "depth", headers := [],
      params := [("symbol", PyVal.str symbol)], jsonBody := Option.none }
  | .currentAvgPrice symbol =>
    { method := Method.GET, url := st.BASE_URL ++ "avgPrice", headers := [],
      params := [("symbol", PyVal.str symbol)], jsonBody := Option.none }
  | .priceTickerIn24Hr symbol =>
    { method := Method.GET, url := st.BASE_URL ++ "ticker/24hr", headers := [],
      params := [("symbol", PyVal.str symbol)], jsonBody := Option.none }
  | .tradingDayTicker symbols =>
    { method := Method.GET, url := st.BASE_URL ++ "ticker/tradingDay", headers := [],
      params := serialize_params [("symbols", PyVal.list (symbols.map PyVal.str))],
      jsonBody := Option.none }
  | .symbolPriceTicker symbol symbols =>
    { method := Method.GET, url := st.BASE_URL ++ "ticker/price", headers := [],
      params := serialize_params
        [("symbol", optStr symbol), ("symbols", optStrList symbols)],
      jsonBody := Option.none }
  | .symbolOrderBookTicker symbol symbols =>
    { method := Method.GET, url := st.BASE_URL ++ "ticker/bookTicker", headers := [],
      params := serialize_params
        [("symbol", optStr symbol), ("symbols", optStrList symbols)],
      jsonBody := Option.none }
  | .rollingWindowTicker symbol symbols windowSize ty =>
    { method := Method.GET, url := st.BASE_URL ++ "ticker", headers := [],
      params := serialize_params
        [("symbol", optStr symbol), ("symbols", optStrList symbols),
         ("windowSize", optStr windowSize), ("type", optStr ty)],
      jsonBody := Option.none }

/-- Every crypto tool issues exactly the one request it builds. -/
theorem runBinance_fst (st : BinanceModule) (env : Env) (c : BinanceCall) :
    (runBinance st env c).1 = [binanceRequest st c] := by
  cases c <;> rfl

/-- The result of every crypto tool is determined by the status and the text
of the single response. -/
theorem runBinance_snd (st : BinanceModule) (env : Env) (c : BinanceCall) :
    (runBinance st env c).2 =
      (if is2xx (env (binanceRequest st c)).status
       then Except.ok (env (binanceRequest st c)).text
       else Except.error (HttpError.statusError (env (binanceRequest st c)).status)) := by
  cases c <;> exact httpGetText_snd env _

/-- Module-level state of dhan_mcp.py: the fixed base URL, the two
credentials read from the environment at import time, the headers dict built
from them, and the registered tools. -/
structure DhanModule where
  BASE_URL : String
  CLIENT_ID : Option String
  ACCESS_TOKEN : Option String
  HEADERS : List (String × Option String)
  tools : List String

/-- dhan_mcp.py lines 9-20 and the seventeen tool registrations: the module
state after import, given the values of the two environment variables
DHAN_CLIENT_ID and DHAN_ACCESS_TOKEN at process start (os.getenv returns
None when a variable is unset). -/
def dhanModuleInit (clientId accessToken : Option String) : DhanModule :=
  { BASE_URL := "https://api.dhan.co/v2",
    CLIENT_ID := clientId,
    ACCESS_TOKEN := accessToken,
    HEADERS := [("Content-Type", some "application/json"),
                ("client-id", clientId),
                ("access-token", accessToken)],
    tools := ["place_order", "place_super_order", "place_forever_order",
              "get_order_book", "get_market_quote", "get_option_chain",
              "get_historical_intraday", "get_historical_daily",
              "get_fund_balance", "get_account_details", "get_holdings",
              "get_positions", "get_portfolio_summary", "calculate_margin",
              "get_margin_benefits", "place_after_market_order",
              "get_after_market_eligibility"] }

/-- The request that call_api builds (dhan_mcp.py lines 28-32): URL is the
base URL plus the path, headers are the module HEADERS, query parameters are
serialize of params or the empty dict, and the JSON body is passed along. -/
def callApiRequest (st : DhanModule) (method : Method) (path : String)
    (params json_body : Option (List (String × PyVal))) : Request :=
  { method := method, url := st.BASE_URL ++ path, headers := st.HEADERS,
    params := serialize (params.getD []), jsonBody := json_body }

/-- dhan_mcp.py lines 27-34: the shared request helper. The ctx argument is
accepted (with any type, as in Python) and never read. On a non-2xx status
the tool raises; otherwise it returns resp.json(). -/
def call_api {γ : Type} (st : DhanModule) (ctx : γ) (env : Env) (method : Method)
    (path : String) (params json_body : Option (List (String × PyVal))) :
    List Request × Except HttpError Json :=
  let req := callApiRequest st method path params json_body
  let resp := env req
  ([req], (raiseForStatus resp).map (fun _ => resp.jsonVal))

theorem call_api_fst {γ : Type} (st : DhanModule) (ctx : γ) (env : Env)
    (method : Method) (path : String) (params json_body : Option (List (String × PyVal))) :
    (call_api st ctx env method path params json_body).1 =
      [callApiRequest st method path params json_body] := rfl

theorem call_api_snd {γ : Type} (st : DhanModule) (ctx : γ) (env : Env)
    (method : Method) (path : String) (params json_body : Option (List (String × PyVal))) :
    (call_api st ctx env method path params json_body).2 =
      (if is2xx (env (callApiRequest st method path params json_body)).status
       then Except.ok (env (callApiRequest st method path params json_body)).jsonVal
       else Except.error (HttpError.statusError
         (env (callApiRequest st method path params json_body)).status)) := by
  show (raiseForStatus _).map _ = _
  unfold raiseForStatus
  cases h : is2xx (env (callApiRequest st method path params json_body)).status <;>
    simp [h, Except.map]

/-- The value stored for a key by a sequence of Python dict assignments: the
last binding wins. -/
def lookupLast (kvs : List (String × PyVal)) (k : String) : Option PyVal :=
  match kvs with
  | [] => Option.none
  | kv :: rest =>
    match lookupLast rest k with
    | some v => some v
    | Option.none => if kv.1 == k then some kv.2 else Option.none

/-- Whether a dict already has a key. -/
def containsKey (d : List (String × PyVal)) (k : String) : Bool :=
  d.any (fun kv => kv.1 == k)

/-- Embedding of Python dict.update: existing keys keep their position and
take the updating value, new keys are appended in order. The updating dict
has distinct keys in every use here (it is a kwargs dict). -/
def dictUpdate (d kvs : List (String × PyVal)) : List (String × PyVal) :=
  d.map (fun kv => (kv.1, (lookupLast kvs kv.1).getD kv.2))
    ++ kvs.filter (fun kv => !(containsKey d kv.1))

/-- Body built by place_order (dhan_mcp.py lines 44-46), including the
kwargs update. -/
def place_order_body (symbol : String) (qty price : PyFloat)
    (side product_type order_type : String) (kwargs : List (String × PyVal)) :
    List (String × PyVal) :=
  dictUpdate
    [("symbol", PyVal.str symbol), ("quantity", PyVal.float qty),
     ("price", PyVal.float price), ("side", PyVal.str side),
     ("productType", PyVal.str product_type), ("orderType", PyVal.str order_type)]
    kwargs

/-- dhan_mcp.py lines 38-47. The ctx passed to call_api is the attribute
mcp.ctx, whose value call_api ignores; it is modelled by the unit value. -/
def place_order (st : DhanModule) (env : Env) (symbol : String) (qty price : PyFloat)
    (side product_type order_type : String) (kwargs : List (String × PyVal)) :
    List Request × Except HttpError Json :=
  call_api st () env Method.POST "/orders" Option.none
    (some (place_order_body symbol qty price side product_type order_type kwargs))

/-- Body built by place_super_order (dhan_mcp.py lines 53-54). -/
def place_super_order_body (symbol : String) (qty entry_price : PyFloat)
    (targets : List PyVal) (stop_loss : PyFloat) : List (String × PyVal) :=
  [("symbol", PyVal.str symbol), ("quantity", PyVal.float qty),
   ("entryPrice", PyVal.float entry_price), ("targets", PyVal.list targets),
   ("stopLoss", PyVal.float stop_loss)]

/-- dhan_mcp.py lines 49-55. -/
def place_super_order (st : DhanModule) (env : Env) (symbol : String)
    (qty entry_price : PyFloat) (targets : List PyVal) (stop_loss : PyFloat) :
    List Request × Except HttpError Json :=
  call_api st () env Method.POST "/super-order" Option.none
    (some (place_super_order_body symbol qty entry_price targets stop_loss))

/-- Body built by place_forever_order (dhan_mcp.py lines 61-62). -/
def place_forever_order_body (symbol : String) (quantity price : PyFloat)
    (side : String) (oco : Bool) : List (String × PyVal) :=
  [("symbol", PyVal.str symbol), ("quantity", PyVal.float quantity),
   ("price", PyVal.float price), ("side", PyVal.str side), ("oco", PyVal.bool oco)]

/-- dhan_mcp.py lines 57-63 (oco defaults to False at the tool surface). -/
def place_forever_order (st : DhanModule) (env : Env) (symbol : String)
    (quantity price : PyFloat) (side : String) (oco : Bool) :
    List Request × Except HttpError Json :=
  call_api st () env Method.POST "/forever-order" Option.none
    (some (place_forever_order_body symbol quantity price side oco))

/-- dhan_mcp.py lines 65-68. -/
def get_order_book (st : DhanModule) (env : Env) :
    List Request × Except HttpError Json :=
  call_api st () env Method.GET "/orders" Option.none Option.none

/-- dhan_mcp.py lines 72-75. -/
def get_market_quote (st : DhanModule) (env : Env) (symbols : List String) :
    List Request × Except HttpError Json :=
  call_api st () env Method.GET "/market-quote"
    (some [("symbols", PyVal.list (symbols.map PyVal.str))]) Option.none

/-- dhan_mcp.py lines 77-80. -/
def get_option_chain (st : DhanModule) (env : Env) (underlying : String) :
    List Request × Except HttpError Json :=
  call_api st () env Method.GET "/option-chain"
    (some [("underlying", PyVal.str underlying)]) Option.none

/-- Body built by get_historical_intraday (dhan_mcp.py line 88). -/
def get_historical_intraday_body (instrument : String) (from_ts to_ts : Int)
    (timeframe : String) : List (String × PyVal) :=
  [("instrument", PyVal.str instrument), ("from", PyVal.int from_ts),
   ("to", PyVal.int to_ts), ("timeframe", PyVal.str timeframe)]

/-- dhan_mcp.py lines 82-89: a data-fetching tool that issues a POST with a
JSON body (timeframe defaults to the string 1m at the tool surface). -/
def get_historical_intraday (st : DhanModule) (env : Env) (instrument : String)
    (from_ts to_ts : Int) (timeframe : String) :
    List Request × Except HttpError Json :=
  call_api st () env Method.POST "/charts/intraday" Option.none
    (some (get_historical_intraday_body instrument from_ts to_ts timeframe))

/-- Body built by get_historical_daily (dhan_mcp.py line 96). -/
def get_historical_daily_body (instrument from_date to_date : String) :
    List (String × PyVal) :=
  [("instrument", PyVal.str instrument), ("from", PyVal.str from_date),
   ("to", PyVal.str to_date)]

/-- dhan_mcp.py lines 91-97: a data-fetching tool that issues a POST with a
JSON body. -/
def get_historical_daily (st : DhanModule) (env : Env)
    (instrument from_date to_date : String) : List Request × Except HttpError Json :=
  call_api st () env Method.POST "/charts/daily" Option.none
    (some (get_historical_daily_body instrument from_date to_date))

/-- dhan_mcp.py lines 101-104. -/
def get_fund_balance (st : DhanModule) (env : Env) :
    List Request × Except HttpError Json :=
  call_api st () env Method.GET "/user/funds" Option.none Option.none

/-- dhan_mcp.py lines 106-109. -/
def get_account_details (st : DhanModule) (env : Env) :
    List Request × Except HttpError Json :=
  call_api st () env Method.GET "/user/profile" Option.none Option.none

/-- dhan_mcp.py lines 113-116. -/
def get_holdings (st : DhanModule) (env : Env) :
    List Request × Except HttpError Json :=
  call_api st () env Method.GET "/holdings" Option.none Option.none

/-- dhan_mcp.py lines 118-121. -/
def get_positions (st : DhanModule) (env : Env) :
    List Request × Except HttpError Json :=
  call_api st () env Method.GET "/positions" Option.none Option.none

/-- dhan_mcp.py lines 123-126. -/
def get_portfolio_summary (st : DhanModule) (env : Env) :
    List Request × Except HttpError Json :=
  call_api st () env Method.GET "/portfolio/summary" Option.none Option.none

/-- Body built by calculate_margin (dhan_mcp.py lines 134-140). -/
def calculate_margin_body (symbol : String) (qty price : PyFloat)
    (order_type product_type : String) : List (String × PyVal) :=
  [("symbol", PyVal.str symbol), ("quantity", PyVal.float qty),
   ("price", PyVal.float price), ("orderType", PyVal.str order_type),
   ("productType", PyVal.str product_type)]

/-- dhan_mcp.py lines 130-141: a read-style tool that issues a POST with a
JSON body (order_type defaults to LIMIT, product_type to INTRADAY at the
tool surface). -/
def calculate_margin (st : DhanModule) (env : Env) (symbol : String)
    (qty price : PyFloat) (order_type product_type : String) :
    List Request × Except HttpError Json :=
  call_api st () env Method.POST "/margin/calculate" Option.none
    (some (calculate_margin_body symbol qty price order_type product_type))

/-- dhan_mcp.py lines 143-146. -/
def get_margin_benefits (st : DhanModule) (env : Env) (symbols : List String) :
    List Request × Except HttpError Json :=
  call_api st () env Method.GET "/margin/benefits"
    (some [("symbols", PyVal.list (symbols.map PyVal.str))]) Option.none

/-- Default value of the product_type parameter of place_after_market_order
(dhan_mcp.py line 152). -/
def place_after_market_order_default : String := "DELIVERY"

/-- Body built by place_after_market_order (dhan_mcp.py lines 157-164): the
afterMarket flag is always the literal True. -/
def place_after_market_order_body (symbol : String) (qty price : PyFloat)
    (side product_type : String) : List (String × PyVal) :=
  [("symbol", PyVal.str symbol), ("quantity", PyVal.float qty),
   ("price", PyVal.float price), ("side", PyVal.str side),
   ("productType", PyVal.str product_type), ("afterMarket", PyVal.bool true)]

/-- dhan_mcp.py lines 150-165. -/
def place_after_market_order (st : DhanModule) (env : Env) (symbol : String)
    (qty price : PyFloat) (side product_type : String) :
    List Request × Except HttpError Json :=
  call_api st () env Method.POST "/orders" Option.none
    (some (place_after_market_order_body symbol qty price side product_type))

/-- dhan_mcp.py lines 167-171. -/
def get_after_market_eligibility (st : DhanModule) (env : Env)
    (symbols : List String) : List Request × Except HttpError Json :=
  call_api st () env Method.GET "/market/after-hours-eligibility"
    (some [("symbols", PyVal.list (symbols.map PyVal.str))]) Option.none

/-- One invocation of a brokerage-adapter tool, with its arguments. -/
inductive DhanCall : Type where
  | place_order (symbol : String) (qty price : PyFloat)
      (side product_type order_type : String) (kwargs : List (String × PyVal))
  | place_super_order (symbol : String) (qty entry_price : PyFloat)
      (targets : List PyVal) (stop_loss : PyFloat)
  | place_forever_order (symbol : String) (quantity price : PyFloat)
      (side : String) (oco : Bool)
  | get_order_book
  | get_market_quote (symbols : List String)
  | get_option_chain (underlying : String)
  | get_historical_intraday (instrument : String) (from_ts to_ts : Int)
      (timeframe : String)
  | get_historical_daily (instrument from_date to_date : String)
  | get_fund_balance
  | get_account_details
  | get_holdings
  | get_positions
  | get_portfolio_summary
  | calculate_margin (symbol : String) (qty price : PyFloat)
      (order_type product_type : String)
  | get_margin_benefits (symbols : List String)
  | place_after_market_order (symbol : String) (qty price : PyFloat)
      (side product_type : String)
  | get_after_market_eligibility (symbols : List String)

/-- Dispatch a brokerage-adapter tool invocation to its tool function. -/
def runDhan (st : DhanModule) (env : Env) : DhanCall →
    List Request × Except HttpError Json
  | .place_order s q p side pt ot kwargs => place_order st env s q p side pt ot kwargs
  | .place_super_order s q ep ts sl => place_super_order st env s q ep ts sl
  | .place_forever_order s q p side oco => place_forever_order st env s q p side oco
  | .get_order_book => get_order_book st env
  | .get_market_quote symbols => get_market_quote st env symbols
  | .get_option_chain u => get_option_chain st env u
  | .get_historical_intraday i f t tf => get_historical_intraday st env i f t tf
  | .get_historical_daily i f t => get_historical_daily st env i f t
  | .get_fund_balance => get_fund_balance st env
  | .get_account_details => get_account_details st env
  | .get_holdings => get_holdings st env
  | .get_positions => get_positions st env
  | .get_portfolio_summary => get_portfolio_summary st env
  | .calculate_margin s q p ot pt => calculate_margin st env s q p ot pt
  | .get_margin_benefits symbols => get_margin_benefits st env symbols
  | .place_after_market_order s q p side pt => place_after_market_order st env s q p side pt
  | .get_after_market_eligibility symbols => get_after_market_eligibility st env symbols

/-- The single request each brokerage-adapter tool builds from its
arguments, through call_api. -/
def dhanRequest (st : DhanModule) : DhanCall → Request
  | .place_order s q p side pt ot kwargs =>
    callApiRequest st Method.POST "/orders" Option.none
      (some (place_order_body s q p side pt ot kwargs))
  | .place_super_order s q ep ts sl =>
    callApiRequest st Method.POST "/super-order" Option.none
      (some (place_super_order_body s q ep ts sl))
  | .place_forever_order s q p side oco =>
    callApiRequest st Method.POST "/forever-order" Option.none
      (some (place_forever_order_body s q p side oco))
  | .get_order_book =>
    callApiRequest st Method.GET "/orders" Option.none Option.none
  | .get_market_quote symbols =>
    callApiRequest st Method.GET "/market-quote"
      (some [("symbols", PyVal.list (symbols.map PyVal.str))]) Option.none
  | .get_option_chain u =>
    callApiRequest st Method.GET "/option-chain"
      (some [("underlying", PyVal.str u)]) Option.none
  | .get_historical_intraday i f t tf =>
    callApiRequest st Method.POST "/charts/intraday" Option.none
      (some (get_historical_intraday_body i f t tf))
  | .get_historical_daily i f t =>
    callApiRequest st Method.POST "/charts/daily" Option.none
      (some (get_historical_daily_body i f t))
  | .get_fund_balance =>
    callApiRequest st Method.GET "/user/funds" Option.none Option.none
  | .get_account_details =>
    callApiRequest st Method.GET "/user/profile" Option.none Option.none
  | .get_holdings =>
    callApiRequest st Method.GET "/holdings" Option.none Option.none
  | .get_positions =>
    callApiRequest st Method.GET "/positions" Option.none Option.none
  | .get_portfolio_summary =>
    callApiRequest st Method.GET "/portfolio/summary" Option.none Option.none
  | .calculate_margin s q p ot pt =>
    callApiRequest st Method.POST "/margin/calculate" Option.none
      (some (calculate_margin_body s q p ot pt))
  | .get_margin_benefits symbols =>
    callApiRequest st Method.GET "/margin/benefits"
      (some [("symbols", PyVal.list (symbols.map PyVal.str))]) Option.none
  | .place_after_market_order s q p side pt =>
    callApiRequest st Method.POST "/orders" Option.none
      (some (place_after_market_order_body s q p side pt))
  | .get_after_market_eligibility symbols =>
    callApiRequest st Method.GET "/market/after-hours-eligibility"
      (some [("symbols", PyVal.list (symbols.map PyVal.str))]) Option.none

/-- Every brokerage tool issues exactly the one request it builds. -/
theorem runDhan_fst (st : DhanModule) (env : Env) (c : DhanCall) :
    (runDhan st env c).1 = [dhanRequest st c] := by
  cases c <;> rfl

/-- The result of every brokerage tool is determined by the status and the
parsed JSON body of the single response. -/
theorem runDhan_snd (st : DhanModule) (env : Env) (c : DhanCall) :
    (runDhan st env c).2 =
      (if is2xx (env (dhanRequest st c)).status
       then Except.ok (env (dhanRequest st c)).jsonVal
       else Except.error (HttpError.statusError (env (dhanRequest st c)).status)) := by
  cases c <;> exact call_api_snd st () env _ _ _ _

/-- A tool invocation of the crypto adapter, with the module state threaded
through. No tool body assigns to any module-level name (there is no global
statement and no mutation of BASE_URL or of the tool registry), so an
invocation returns the module state it started from. -/
def invokeBinance (st : BinanceModule) (env : Env) (c : BinanceCall) :
    BinanceModule × (List Request × Except HttpError String) :=
  (st, runBinance st env c)

/-- A tool invocation of the brokerage adapter, with the module state
threaded through. No tool body assigns to any module-level name (HEADERS,
CLIENT_ID, ACCESS_TOKEN, BASE_URL and the tool registry are only read), so
an invocation returns the module state it started from. -/
def invokeDhan (st : DhanModule) (env : Env) (c : DhanCall) :
    DhanModule × (List Request × Except HttpError Json) :=
  (st, runDhan st env c)

/-- Order-placement tools of the brokerage adapter: the four tools that
create an order on the broker. -/
def dhanIsOrderPlacement : DhanCall → Bool
  | .place_order .. => true
  | .place_super_order .. => true
  | .place_forever_order .. => true
  | .place_after_market_order .. => true
  | _ => false

/-- The brokerage tools that issue a POST request, read off the source: the
four order-placement tools, the two historical-chart fetchers, and the
margin calculator. -/
def dhanUsesPost : DhanCall → Bool
  | .place_order .. => true
  | .place_super_order .. => true
  | .place_forever_order .. => true
  | .get_historical_intraday .. => true
  | .get_historical_daily .. => true
  | .calculate_margin .. => true
  | .place_after_market_order .. => true
  | _ => false

/-- The expected query entry contributed by one optional integer argument:
absent when the argument is None, the single pair otherwise. -/
def optIntEntry (k : String) : Option Int → List (String × PyVal)
  | Option.none => []
  | some n => [(k, PyVal.int n)]

/-- Claim C1: for every input parameter mapping, both serialization helpers
(serialize_params in the crypto adapter and serialize in the brokerage
adapter) return the mapping whose key list is exactly the list of input keys
with non-None values, in order, where each list value is replaced by its
JSON encoding and every non-list, non-None value is kept unchanged under
its original key; specSerialize is that stated outcome. -/
theorem spec_C1 (m : List (String × PyVal)) :
    serialize_params m = specSerialize m
    ∧ serialize m = specSerialize m
    ∧ (serialize_params m).map Prod.fst =
        (m.filter (fun kv => !(kv.2.isNone))).map Prod.fst
    ∧ (serialize m).map Prod.fst =
        (m.filter (fun kv => !(kv.2.isNone))).map Prod.fst := by
  have hk : (specSerialize m).map Prod.fst =
      (m.filter (fun kv => !(kv.2.isNone))).map Prod.fst := by
    unfold specSerialize
    rw [List.map_map]
    rfl
  exact ⟨serialize_params_eq_spec m, serialize_eq_spec m,
    by rw [serialize_params_eq_spec m]; exact hk,
    by rw [serialize_eq_spec m]; exact hk⟩

/-- Claim C2: for every tool of both adapters, an invocation errors exactly
when the HTTP response to its single request has a non-2xx status, the error
being the status error of that very response (no retry, no
reclassification, no local recovery); on a 2xx response the crypto tools
return the raw response text and the brokerage tools return the JSON-parsed
body. -/
theorem spec_C2 (env : Env) (cid tok : Option String) (b : BinanceCall) (c : DhanCall) :
    (runBinance binanceModuleInit env b).2 =
      (if is2xx (env (binanceRequest binanceModuleInit b)).status
       then Except.ok (env (binanceRequest binanceModuleInit b)).text
       else Except.error (HttpError.statusError
         (env (binanceRequest binanceModuleInit b)).status))
    ∧ (runDhan (dhanModuleInit cid tok) env c).2 =
      (if is2xx (env (dhanRequest (dhanModuleInit cid tok) c)).status
       then Except.ok (env (dhanRequest (dhanModuleInit cid tok) c)).jsonVal
       else Except.error (HttpError.statusError
         (env (dhanRequest (dhanModuleInit cid tok) c)).status)) :=
  ⟨runBinance_snd binanceModuleInit env b, runDhan_snd (dhanModuleInit cid tok) env c⟩

/-- Claim C3 as stated is false on the code: get_historical_intraday is a
data-fetching (read) tool, not an order-placement tool, yet at this concrete
input it issues a POST request carrying a JSON body, and its arguments are
not sent as query parameters at all. -/
theorem spec_C3_cex :
    dhanIsOrderPlacement (DhanCall.get_historical_intraday "TCS" 0 1 "1m") = false
    ∧ (dhanRequest (dhanModuleInit (some "client") (some "token"))
        (DhanCall.get_historical_intraday "TCS" 0 1 "1m")).method = Method.POST
    ∧ ((dhanRequest (dhanModuleInit (some "client") (some "token"))
        (DhanCall.get_historical_intraday "TCS" 0 1 "1m")).jsonBody).isSome = true
    ∧ (dhanRequest (dhanModuleInit (some "client") (some "token"))
        (DhanCall.get_historical_intraday "TCS" 0 1 "1m")).params = [] :=
  ⟨rfl, rfl, rfl, rfl⟩

/-- Claim C3 amended: every crypto-adapter tool issues a GET request with no
body; in the brokerage adapter the four order-placement tools and also the
three read tools get_historical_intraday, get_historical_daily and
calculate_margin issue POST requests with a JSON body, and every other
brokerage tool issues a GET request with no body; in particular every
order-placement tool does POST. -/
theorem spec_C3_amended (cid tok : Option String) (b : BinanceCall) (c : DhanCall) :
    (binanceRequest binanceModuleInit b).method = Method.GET
    ∧ (binanceRequest binanceModuleInit b).jsonBody = Option.none
    ∧ (dhanRequest (dhanModuleInit cid tok) c).method =
        (if dhanUsesPost c then Method.POST else Method.GET)
    ∧ ((dhanRequest (dhanModuleInit cid tok) c).jsonBody).isSome = dhanUsesPost c
    ∧ ((dhanIsOrderPlacement c) && !(dhanUsesPost c)) = false := by
  refine ⟨?_, ?_, ?_, ?_, ?_⟩
  · cases b <;> rfl
  · cases b <;> rfl
  · cases c <;> rfl
  · cases c <;> rfl
  · cases c <;> rfl

/-- Claim C4: every brokerage tool issues its single request with exactly
the fixed headers: Content-Type application/json, client-id equal to the
DHAN_CLIENT_ID environment value read at process start, and access-token
equal to the DHAN_ACCESS_TOKEN environment value read at process start,
identically across all tools and invocations. -/
theorem spec_C4 (cid tok : Option String) (env : Env) (c : DhanCall) :
    (runDhan (dhanModuleInit cid tok) env c).1 =
      [dhanRequest (dhanModuleInit cid tok) c]
    ∧ (dhanRequest (dhanModuleInit cid tok) c).headers =
      [("Content-Type", some "application/json"),
       ("client-id", cid), ("access-token", tok)] :=
  ⟨runDhan_fst (dhanModuleInit cid tok) env c, by cases c <;> rfl⟩

/-- Claim C5: each tool invocation, in either adapter, issues exactly one
outbound HTTP request, whatever its arguments and whatever the response. -/
theorem spec_C5 (env : Env) (cid tok : Option String) (b : BinanceCall) (c : DhanCall) :
    (runBinance binanceModuleInit env b).1.length = 1
    ∧ (runDhan (dhanModuleInit cid tok) env c).1.length = 1 := by
  constructor
  · rw [runBinance_fst]
    rfl
  · rw [runDhan_fst]
    rfl

/-- Claim C6: for every symbol, interval and optional startTime, endTime and
limit, getTradeData issues one GET request to the fixed base URL plus klines
whose query parameters are exactly the non-None entries among symbol,
interval, startTime, endTime and limit, in that order: symbol and interval
are always present and each optional argument left as None is absent. -/
theorem spec_C6 (env : Env) (symbol interval : String)
    (startTime endTime limit : Option Int) :
    (runBinance binanceModuleInit env
      (BinanceCall.getTradeData symbol interval startTime endTime limit)).1 =
      [{ method := Method.GET, url := binanceModuleInit.BASE_URL ++ "klines",
         headers := [],
         params := [("symbol", PyVal.str symbol), ("interval", PyVal.str interval)]
           ++ optIntEntry "startTime" startTime ++ optIntEntry "endTime" endTime
           ++ optIntEntry "limit" limit,
         jsonBody := Option.none }] := by
  cases startTime <;> cases endTime <;> cases limit <;> rfl

/-- Claim C7: no tool invocation in either adapter modifies any module-level
state: after any invocation the module state (base URL, credentials, headers
and the registered tool list) is unchanged, and the result of a later
invocation is the same as if the earlier one had never run, so no data
produced by one invocation is readable by a later one. -/
theorem spec_C7 (env : Env) (stB : BinanceModule) (stD : DhanModule)
    (b b2 : BinanceCall) (c c2 : DhanCall) :
    (invokeBinance stB env b).1 = stB
    ∧ (invokeDhan stD env c).1 = stD
    ∧ (invokeBinance stB env b).1.BASE_URL = stB.BASE_URL
    ∧ (invokeBinance stB env b).1.tools = stB.tools
    ∧ (invokeDhan stD env c).1.BASE_URL = stD.BASE_URL
    ∧ (invokeDhan stD env c).1.CLIENT_ID = stD.CLIENT_ID
    ∧ (invokeDhan stD env c).1.ACCESS_TOKEN = stD.ACCESS_TOKEN
    ∧ (invokeDhan stD env c).1.HEADERS = stD.HEADERS
    ∧ (invokeDhan stD env c).1.tools = stD.tools
    ∧ (invokeBinance (invokeBinance stB env b).1 env b2).2 =
        (invokeBinance stB env b2).2
    ∧ (invokeDhan (invokeDhan stD env c).1 env c2).2 =
        (invokeDhan stD env c2).2 :=
  ⟨rfl, rfl, rfl, rfl, rfl, rfl, rfl, rfl, rfl, rfl, rfl⟩

/-- Claim C8: both serialization helpers are idempotent: applying
serialize_params, or serialize, to its own output returns that output
unchanged, and indeed the output contains no None values and no list
values. -/
theorem spec_C8 (m : List (String × PyVal)) :
    serialize_params (serialize_params m) = serialize_params m
    ∧ serialize (serialize m) = serialize m
    ∧ (serialize_params m).all (fun kv => !(kv.2.isNone) && !(kv.2.isList)) = true
    ∧ (serialize m).all (fun kv => !(kv.2.isNone) && !(kv.2.isList)) = true := by
  simp only [serialize_params_eq_spec, serialize_eq_spec]
  exact ⟨specSerialize_id_of_scalar _ (specSerialize_all_scalar m),
         specSerialize_id_of_scalar _ (specSerialize_all_scalar m),
         specSerialize_all_scalar m, specSerialize_all_scalar m⟩

/-- Claim C9: the result of call_api does not depend on its ctx argument:
for every method, path, params and json body, any two context values of any
types give the same single request and the same result, because ctx is
never read inside call_api. -/
theorem spec_C9 (γ δ : Type) (ctx1 : γ) (ctx2 : δ) (st : DhanModule) (env : Env)
    (method : Method) (path : String)
    (params json_body : Option (List (String × PyVal))) :
    call_api st ctx1 env method path params json_body =
      call_api st ctx2 env method path params json_body := rfl

/-- Claim C10: for every combination of its arguments,
place_after_market_order issues one POST to the /orders path whose JSON body
carries the entry afterMarket mapped to True, and when product_type takes
its default value the productType entry of the body is DELIVERY. -/
theorem spec_C10 (cid tok : Option String) (env : Env) (symbol : String)
    (qty price : PyFloat) (side product_type : String) :
    (runDhan (dhanModuleInit cid tok) env
      (DhanCall.place_after_market_order symbol qty price side product_type)).1 =
      [{ method := Method.POST,
         url := (dhanModuleInit cid tok).BASE_URL ++ "/orders",
         headers := (dhanModuleInit cid tok).HEADERS,
         params := [],
         jsonBody := some
           [("symbol", PyVal.str symbol), ("quantity", PyVal.float qty),
            ("price", PyVal.float price), ("side", PyVal.str side),
            ("productType", PyVal.str product_type),
            ("afterMarket", PyVal.bool true)] }]
    ∧ List.lookup "afterMarket"
        (place_after_market_order_body symbol qty price side product_type) =
        some (PyVal.bool true)
    ∧ List.lookup "productType"
        (place_after_market_order_body symbol qty price side
          place_after_market_order_default) = some (PyVal.str "DELIVERY") :=
  ⟨rfl, rfl, rfl⟩
